import Mathlib

/-!
# cifuzz `internal/api`: error classification, authenticated requests, bundle upload

A shallow embedding of `internal/api/api.go`.

* Go `error` values are the inductive type `GoError`; a `nil` error is `none`.
* Go `string` and `[]byte` are `String`; Go `int` is `Int`.
* Everything the package calls but does not implement (net/http, net/url,
  encoding/json, the operating system) is a field of `Env`: every theorem
  quantifies over an arbitrary `Env`, so it holds whatever those libraries do.
* The two functions on server URLs read the scheme of a parsed URL.  For them
  `url.Parse` and `url.JoinPath` are written out as far as the scheme goes, over
  the fields of `NetURL` (section "Server URLs").  `Env.JoinPath` is the same
  function seen from outside, with nothing assumed about it.
* One call of `UploadBundle` runs three goroutines in an errgroup.  The outcomes
  of their blocking operations and the order in which they report to the group
  are the fields of `UploadRun`.
* Logging (`log.Warnf`, `log.Error`, `log.Errorf`, `fmt.Println`) has no effect
  on any returned value and is left out.
-/

namespace Api

/-! ## Errors -/

/-- An error value created outside package `api` by the Go standard library or
the operating system (net/http, net/url, encoding/json, os, io, context).  No
such value has an `*APIError` or a `*ConnectionError` in its Unwrap chain. -/
structure StdError where
  msg : String
deriving DecidableEq, Repr

/-- The error values that reach the callers of package `api`. -/
inductive GoError where
  /-- an error of the standard library, passed on as it is -/
  | std (e : StdError)
  /-- the result of `errors.New(msg)` and `errors.Errorf(...)` of pkg/errors -/
  | fundamental (msg : String)
  /-- the result of `errors.WithStack(err)` for a non-nil `err` -/
  | withStack (err : GoError)
  /-- the value `&APIError{err, StatusCode}` -/
  | APIError (err : GoError) (StatusCode : Int)
  /-- the value `&ConnectionError{err}` -/
  | ConnectionError (err : GoError)
  /-- Modelled from the spec: the result of `cmdutils.WrapSilentError(err)`,
  whose source is in package cmdutils: the error wrapped as a silent error, a
  wrapper that keeps `err` as the next error of its Unwrap chain -/
  | SilentError (err : GoError)
  /-- Modelled from the spec: the result of `cmdutils.NewSignalError(sig)`,
  whose source is in package cmdutils: the distinguished signal-interrupted
  failure, carrying which signal -/
  | SignalError (sig : Nat)
deriving DecidableEq, Repr

/-- The method `Error()`.  `APIError.Error` and `ConnectionError.Error` return
`e.err.Error()`; the wrappers of pkg/errors and cmdutils do the same.  The text
of a signal error is written in package cmdutils; no statement below reads it. -/
def GoError.Error : GoError → String
  | .std e => e.msg
  | .fundamental msg => msg
  | .withStack err => err.Error
  | .APIError err _ => err.Error
  | .ConnectionError err => err.Error
  | .SilentError err => err.Error
  | .SignalError sig => "terminated by signal " ++ toString sig

/-- The method `Unwrap()`, for the error types that have one. -/
def GoError.Unwrap : GoError → Option GoError
  | .withStack err => some err
  | .APIError err _ => some err
  | .ConnectionError err => some err
  | .SilentError err => some err
  | _ => none

/-- `errors.WithStack(err)`: `nil` for a `nil` error. -/
def WithStack : Option GoError → Option GoError
  | none => none
  | some err => some (.withStack err)

/-- `errors.As(err, &target)`: the first error of the Unwrap chain of `err` that
has the type of the target, tested by `isTarget`. -/
def errorsAs (isTarget : GoError → Bool) (err : GoError) : Option GoError :=
  if isTarget err then some err else
  match err with
  | .withStack inner => errorsAs isTarget inner
  | .APIError inner _ => errorsAs isTarget inner
  | .ConnectionError inner => errorsAs isTarget inner
  | .SilentError inner => errorsAs isTarget inner
  | _ => none

/-- The type test of a target `*APIError`. -/
def isAPIError : GoError → Bool
  | .APIError _ _ => true
  | _ => false

/-- The type test of a target `*ConnectionError`. -/
def isConnectionError : GoError → Bool
  | .ConnectionError _ => true
  | _ => false

/-- `WrapConnectionError(err)`. -/
def WrapConnectionError (err : GoError) : GoError :=
  .ConnectionError err

/-! ## HTTP and JSON data -/

/-- What `io.ReadAll(resp.Body)` returns: the bytes read and the error. -/
structure ReadAllResult where
  data : String
  err : Option StdError
deriving DecidableEq, Repr

/-- The fields of `http.Response` that the package reads. -/
structure Response where
  Status : String
  StatusCode : Int
  Body : ReadAllResult
deriving DecidableEq, Repr

/-- The body handed to `http.NewRequestWithContext`. -/
inductive RequestBody where
  /-- a `nil` reader -/
  | empty
  /-- a reader over bytes that the caller holds -/
  | bytes (data : String)
  /-- the read end of the pipe that the body producer writes to -/
  | pipe
deriving DecidableEq, Repr

/-- The request built by `http.NewRequestWithContext` and the header calls. -/
structure Request where
  Method : String
  URL : String
  Body : RequestBody
  Header : List (String × String)
deriving DecidableEq, Repr

structure APIClient where
  Server : String
  UserAgent : String
deriving DecidableEq, Repr

structure Artifact where
  DisplayName : String
  ResourceName : String
deriving DecidableEq, Repr

/-- The anonymous struct `struct { Code int; Message string }` that
`responseToAPIError` decodes into. -/
structure APIResponse where
  Code : Int
  Message : String
deriving DecidableEq, Repr

/-- A `json.RawMessage`: the text of one JSON value. -/
abbrev RawMessage := String

/-- A `map[string]json.RawMessage`, as an association list with distinct keys. -/
abbrev ObjMap := List (String × RawMessage)

/-- The behaviour of `json.Unmarshal(data, &v)` at the four types of `v` that
the package uses.  Each function takes the bytes and the value that `v` holds
before the call and returns the value that it holds afterwards and the error. -/
structure JSONDecoder where
  intoAPIResponse : String → APIResponse → APIResponse × Option StdError
  intoArtifact : String → Artifact → Artifact × Option StdError
  intoObjMap : String → ObjMap → ObjMap × Option StdError
  intoString : String → String → String × Option StdError

/-- The libraries and the world around the package. -/
structure Env where
  /-- encoding/json -/
  json : JSONDecoder
  /-- `url.JoinPath(base, elem...)` -/
  JoinPath : String → List String → Except StdError String
  /-- the error of `http.NewRequestWithContext(ctx, method, url, body)` -/
  NewRequestWithContext : String → String → Option StdError
  /-- `httpClient.Do(req)` for a client with the given `Timeout` in nanoseconds
  (0 for none): `.ok resp` when `Do` returns `resp` and a nil error, `.error err`
  when it returns the error `err` and no response to read -/
  Do : Int → Request → Except StdError Response
  /-- `stringutil.PrettyString` -/
  PrettyString : ObjMap → String

/-! ## The error classifier -/

def responseToAPIError (env : Env) (resp : Response) : GoError :=
  let msg := resp.Status
  match resp.Body.err with
  | some _ => .APIError (.fundamental msg) resp.StatusCode
  | none =>
    let body := resp.Body.data
    match env.json.intoAPIResponse body ⟨0, ""⟩ with
    | (_, some _) => .APIError (.fundamental (msg ++ ": " ++ body)) resp.StatusCode
    | (apiResp, none) =>
      .APIError (.fundamental (msg ++ ": " ++ apiResp.Message)) resp.StatusCode

/-! ## The authenticated request client -/

/-- `time.Second`, in nanoseconds. -/
def Second : Int := 1000000000

/-- The request that `sendRequestWithTimeout` builds. -/
def authenticatedRequest (client : APIClient) (method url : String) (body : RequestBody)
    (token : String) : Request :=
  ⟨method, url, body,
    [("User-Agent", client.UserAgent), ("Authorization", "Bearer " ++ token)]⟩

def sendRequestWithTimeout (env : Env) (client : APIClient) (method endpoint : String)
    (body : RequestBody) (token : String) (timeout : Int) : Except GoError Response :=
  match env.JoinPath client.Server [endpoint] with
  | .error err => .error (.std err)
  | .ok url =>
    match env.NewRequestWithContext method url with
    | some err => .error (.withStack (.std err))
    | none =>
      let req := authenticatedRequest client method url body token
      match env.Do timeout req with
      | .error err => .error (WrapConnectionError (.withStack (.std err)))
      | .ok resp => .ok resp

def sendRequest (env : Env) (client : APIClient) (method endpoint : String)
    (body : RequestBody) (token : String) : Except GoError Response :=
  let timeout := 30 * Second
  sendRequestWithTimeout env client method endpoint body token timeout

/-! ## The token validity check -/

/-- `IsTokenValid`.  `client.ListProjects` is defined in another file of the
package; `ListProjects token` is the error that it returns. -/
def IsTokenValid (ListProjects : String → Option GoError) (token : String) :
    Bool × Option GoError :=
  match ListProjects token with
  | some err =>
    match errorsAs isAPIError err with
    | some (.APIError _ StatusCode) =>
      if StatusCode = 401 then (false, none) else (false, some err)
    | _ => (false, some err)
  | none => (true, none)

/-! ## Starting a remote run -/

def StartRemoteFuzzingRun (env : Env) (client : APIClient) (artifact : Artifact)
    (token : String) : String × Option GoError :=
  match env.JoinPath "/v1" [artifact.ResourceName ++ ":run"] with
  | .error err => ("", some (.std err))
  | .ok url =>
    match sendRequest env client "POST" url .empty token with
    | .error err => ("", some err)
    | .ok resp =>
      if resp.StatusCode ≠ 200 then ("", some (responseToAPIError env resp)) else
      match resp.Body.err with
      | some err => ("", some (.withStack (.std err)))
      | none =>
        match env.json.intoObjMap resp.Body.data [] with
        | (_, some err) => ("", some (.withStack (.std err)))
        | (objmap, none) =>
          match objmap.lookup "name" with
          | none =>
            ("", some (.SilentError (.fundamental
              ("Server response doesn't include run name: " ++ env.PrettyString objmap))))
          | some campaignRunNameJSON =>
            match env.json.intoString campaignRunNameJSON "" with
            | (_, some err) => ("", some (.withStack (.std err)))
            | (campaignRunName, none) => (campaignRunName, none)

/-! ## The streaming upload pipeline -/

/-- The three goroutines of `UploadBundle`, in the order of their `routines.Go`. -/
inductive Phase where
  | signalHandler
  | bodyProducer
  | requestIssuer
deriving DecidableEq, Repr

/-- The order in which the three goroutines return to the errgroup. -/
inductive JoinOrder where
  | signalProducerIssuer
  | signalIssuerProducer
  | producerSignalIssuer
  | producerIssuerSignal
  | issuerSignalProducer
  | issuerProducerSignal
deriving DecidableEq, Repr

def JoinOrder.phases : JoinOrder → List Phase
  | .signalProducerIssuer => [.signalHandler, .bodyProducer, .requestIssuer]
  | .signalIssuerProducer => [.signalHandler, .requestIssuer, .bodyProducer]
  | .producerSignalIssuer => [.bodyProducer, .signalHandler, .requestIssuer]
  | .producerIssuerSignal => [.bodyProducer, .requestIssuer, .signalHandler]
  | .issuerSignalProducer => [.requestIssuer, .signalHandler, .bodyProducer]
  | .issuerProducerSignal => [.requestIssuer, .bodyProducer, .signalHandler]

/-- What one call of `UploadBundle` meets outside the request itself. -/
structure UploadRun where
  /-- the signal that arrives on `sigs` before `signalHandlerCtx` is done -/
  signal : Option Nat
  /-- the error of `m.CreateFormFile(fieldname, filename)` -/
  CreateFormFile : String → String → Option StdError
  /-- the error of `os.Stat(path)` -/
  Stat : String → Option StdError
  /-- the error of `os.Open(path)` -/
  Open : String → Option StdError
  /-- the error of `io.Copy(part, reader)` for the file at the path -/
  Copy : String → Option StdError
  /-- the value of `m.FormDataContentType()` -/
  FormDataContentType : String
  /-- the order in which the goroutines return -/
  order : JoinOrder

/-- The first goroutine: it waits for a signal or for `signalHandlerCtx`. -/
def signalHandler (run : UploadRun) : Option GoError :=
  match run.signal with
  | none => none
  | some s => some (.SignalError s)

/-- The second goroutine: it writes the file into the pipe. -/
def bodyProducer (run : UploadRun) (path : String) : Option GoError :=
  match run.CreateFormFile "fuzzing-artifacts" path with
  | some err => some (.withStack (.std err))
  | none =>
    match run.Stat path with
    | some err => some (.withStack (.std err))
    | none =>
      match run.Open path with
      | some err => some (.withStack (.std err))
      | none => WithStack ((run.Copy path).map .std)

/-- The calls that the second goroutine makes on the multipart writer `m` and on
the write end `w` of the pipe. -/
inductive WriterCall where
  /-- `m.CreateFormFile(fieldname, filename)` -/
  | CreateFormFile (fieldname filename : String)
  /-- `io.Copy(part, reader)` -/
  | Copy
  /-- the deferred `m.Close()` -/
  | CloseMultipart
  /-- the deferred `w.Close()` -/
  | ClosePipe
deriving DecidableEq, Repr

/-- The calls of the second goroutine on `m` and `w`, in their order: the
deferred calls run last, `m.Close()` before `w.Close()`, on every return. -/
def bodyProducerCalls (run : UploadRun) (path : String) : List WriterCall :=
  let deferred : List WriterCall := [.CloseMultipart, .ClosePipe]
  match run.CreateFormFile "fuzzing-artifacts" path with
  | some _ => .CreateFormFile "fuzzing-artifacts" path :: deferred
  | none =>
    match run.Stat path with
    | some _ => .CreateFormFile "fuzzing-artifacts" path :: deferred
    | none =>
      match run.Open path with
      | some _ => .CreateFormFile "fuzzing-artifacts" path :: deferred
      | none => .CreateFormFile "fuzzing-artifacts" path :: .Copy :: deferred

/-- The request that the third goroutine builds. -/
def uploadRequest (client : APIClient) (run : UploadRun) (url token : String) : Request :=
  ⟨"POST", url, .pipe,
    [("User-Agent", client.UserAgent), ("Content-Type", run.FormDataContentType),
     ("Authorization", "Bearer " ++ token)]⟩

/-- The third goroutine: it sends the request.  The first component is the value
of the variable `body` when the goroutine returns, the second the error. -/
def requestIssuer (env : Env) (client : APIClient) (run : UploadRun)
    (projectName token : String) : String × Option GoError :=
  match env.JoinPath client.Server ["v2", projectName, "artifacts", "import"] with
  | .error err => ("", some (.withStack (.std err)))
  | .ok url =>
    match env.NewRequestWithContext "POST" url with
    | some err => ("", some (.withStack (.std err)))
    | none =>
      let req := uploadRequest client run url token
      match env.Do 0 req with
      | .error err => ("", some (.withStack (.std err)))
      | .ok resp =>
        if resp.StatusCode ≠ 200 then ("", some (responseToAPIError env resp)) else
        (resp.Body.data, WithStack (resp.Body.err.map .std))

/-- The error kept by the errgroup: the first non-nil one (`errOnce`). -/
def firstError : List (Option GoError) → Option GoError
  | [] => none
  | some err :: _ => some err
  | none :: rest => firstError rest

/-- `routines.Wait()`: the error of the goroutine that failed first. -/
def Wait (order : JoinOrder) (result : Phase → Option GoError) : Option GoError :=
  firstError (order.phases.map result)

/-- The results of the three goroutines of one call. -/
def phaseResult (env : Env) (client : APIClient) (run : UploadRun)
    (path projectName token : String) : Phase → Option GoError
  | .signalHandler => signalHandler run
  | .bodyProducer => bodyProducer run path
  | .requestIssuer => (requestIssuer env client run projectName token).2

/-- The goroutine `p` is the first to report an error to the group: every
goroutine that returned before it returned `nil`. -/
def reportsFirst (order : JoinOrder) (result : Phase → Option GoError) (p : Phase) : Prop :=
  ∀ q ∈ order.phases.takeWhile (fun q => decide (q ≠ p)), result q = none

instance (order : JoinOrder) (result : Phase → Option GoError) (p : Phase) :
    Decidable (reportsFirst order result p) := by
  unfold reportsFirst
  infer_instance

def UploadBundle (env : Env) (client : APIClient) (run : UploadRun)
    (path projectName token : String) : Option Artifact × Option GoError :=
  let body := (requestIssuer env client run projectName token).1
  match Wait run.order (phaseResult env client run path projectName token) with
  | some err => (none, some err)
  | none =>
    match env.json.intoArtifact body ⟨"", ""⟩ with
    | (_, some err) => (none, some (.SilentError (.withStack (.std err))))
    | (artifact, none) => (some artifact, none)

/-! ## A decoder and an environment for worked examples

`GoJSON.decoder` reads JSON the way encoding/json does for the four target types
of the package.  The general theorems below do not depend on it: they hold for
every `Env`.  It is used to run the functions on concrete response bodies. -/

namespace GoJSON

def isSpace (c : Char) : Bool :=
  c = ' ' || c = '\t' || c = '\n' || c = '\r'

def skipSpace : List Char → List Char
  | [] => []
  | c :: cs => if isSpace c then skipSpace cs else c :: cs

def hexDigit (c : Char) : Option Nat :=
  if '0' ≤ c ∧ c ≤ '9' then some (c.toNat - 48)
  else if 'a' ≤ c ∧ c ≤ 'f' then some (c.toNat - 87)
  else if 'A' ≤ c ∧ c ≤ 'F' then some (c.toNat - 55)
  else none

/-- The character of a four-digit escape; U+FFFD for a lone surrogate. -/
def escapedChar (a b c d : Char) : Option Char :=
  match hexDigit a, hexDigit b, hexDigit c, hexDigit d with
  | some w, some x, some y, some z =>
    let n := ((w * 16 + x) * 16 + y) * 16 + z
    some (if 0xD800 ≤ n ∧ n ≤ 0xDFFF then Char.ofNat 0xFFFD else Char.ofNat n)
  | _, _, _, _ => none

/-- The rest of a string literal, after the opening quote: the decoded
characters and what follows the closing quote. -/
def readString : List Char → List Char → Option (List Char × List Char)
  | [], _ => none
  | '"' :: rest, acc => some (acc.reverse, rest)
  | '\\' :: '"' :: rest, acc => readString rest ('"' :: acc)
  | '\\' :: '\\' :: rest, acc => readString rest ('\\' :: acc)
  | '\\' :: '/' :: rest, acc => readString rest ('/' :: acc)
  | '\\' :: 'b' :: rest, acc => readString rest (Char.ofNat 8 :: acc)
  | '\\' :: 'f' :: rest, acc => readString rest (Char.ofNat 12 :: acc)
  | '\\' :: 'n' :: rest, acc => readString rest ('\n' :: acc)
  | '\\' :: 'r' :: rest, acc => readString rest ('\r' :: acc)
  | '\\' :: 't' :: rest, acc => readString rest ('\t' :: acc)
  | '\\' :: 'u' :: a :: b :: c :: d :: rest, acc =>
    match escapedChar a b c d with
    | some ch => readString rest (ch :: acc)
    | none => none
  | '\\' :: _, _ => none
  | c :: rest, acc => if c.toNat < 32 then none else readString rest (c :: acc)

def dropDigits : List Char → List Char
  | [] => []
  | c :: cs => if c.isDigit then dropDigits cs else c :: cs

/-- What follows a number literal at the head of the input. -/
def readNumber (cs : List Char) : Option (List Char) :=
  let afterSign := match cs with
    | '-' :: rest => rest
    | _ => cs
  let afterInt : Option (List Char) := match afterSign with
    | '0' :: rest => some rest
    | c :: rest => if c.isDigit then some (dropDigits rest) else none
    | [] => none
  let afterFrac : Option (List Char) := match afterInt with
    | some ('.' :: c :: rest) => if c.isDigit then some (dropDigits rest) else none
    | some ['.'] => none
    | other => other
  match afterFrac with
  | some ('e' :: '+' :: c :: rest) => if c.isDigit then some (dropDigits rest) else none
  | some ('e' :: '-' :: c :: rest) => if c.isDigit then some (dropDigits rest) else none
  | some ('E' :: '+' :: c :: rest) => if c.isDigit then some (dropDigits rest) else none
  | some ('E' :: '-' :: c :: rest) => if c.isDigit then some (dropDigits rest) else none
  | some ('e' :: c :: rest) => if c.isDigit then some (dropDigits rest) else none
  | some ('E' :: c :: rest) => if c.isDigit then some (dropDigits rest) else none
  | some ['e'] => none
  | some ['E'] => none
  | other => other

/-- The text that a value took: the input without what follows the value. -/
def consumed (cs rest : List Char) : String :=
  String.mk (cs.take (cs.length - rest.length))

/-- The elements of an array after the first bracket, given the reader of one
value: what follows the closing bracket. -/
def readElements (value : List Char → Option (List Char)) :
    Nat → List Char → Option (List Char)
  | 0, _ => none
  | n + 1, cs =>
    match value cs with
    | none => none
    | some rest =>
      match skipSpace rest with
      | ',' :: more => readElements value n (skipSpace more)
      | ']' :: more => some more
      | _ => none

/-- The members of an object after the first brace, given the reader of one
value: the keys with the texts of their values, and what follows the closing
brace. -/
def readMembers (value : List Char → Option (List Char)) :
    Nat → List Char → Option (List (String × RawMessage) × List Char)
  | 0, _ => none
  | n + 1, cs =>
    match cs with
    | '"' :: afterQuote =>
      match readString afterQuote [] with
      | none => none
      | some (key, afterKey) =>
        match skipSpace afterKey with
        | ':' :: afterColon =>
          let start := skipSpace afterColon
          match value start with
          | none => none
          | some rest =>
            match skipSpace rest with
            | ',' :: more =>
              match readMembers value n (skipSpace more) with
              | none => none
              | some (members, tail) =>
                some ((String.mk key, consumed start rest) :: members, tail)
            | '}' :: more => some ([(String.mk key, consumed start rest)], more)
            | _ => none
        | _ => none
    | _ => none

/-- One JSON value at the head of the input: what follows it. -/
def readValue : Nat → List Char → Option (List Char)
  | 0, _ => none
  | fuel + 1, cs =>
    match cs with
    | '{' :: rest =>
      match skipSpace rest with
      | '}' :: more => some more
      | members => (readMembers (readValue fuel) fuel members).map (·.2)
    | '[' :: rest =>
      match skipSpace rest with
      | ']' :: more => some more
      | elements => readElements (readValue fuel) fuel elements
    | '"' :: rest => (readString rest []).map (·.2)
    | 't' :: 'r' :: 'u' :: 'e' :: rest => some rest
    | 'f' :: 'a' :: 'l' :: 's' :: 'e' :: rest => some rest
    | 'n' :: 'u' :: 'l' :: 'l' :: rest => some rest
    | _ => readNumber cs

/-- The outermost layer of a JSON text. -/
inductive Value where
  | null
  | bool (b : Bool)
  | number (literal : String)
  | string (s : String)
  | array
  | object (members : List (String × RawMessage))
deriving DecidableEq, Repr

/-- The value that a whole JSON text holds; `none` for a text that is not valid
JSON. -/
def parse (data : String) : Option Value :=
  let cs := skipSpace data.toList
  let fuel := cs.length + 1
  match readValue fuel cs with
  | none => none
  | some rest =>
    if skipSpace rest ≠ [] then none else
    match cs with
    | '{' :: inner =>
      match skipSpace inner with
      | '}' :: _ => some (.object [])
      | members => (readMembers (readValue fuel) fuel members).map (fun r => .object r.1)
    | '[' :: _ => some .array
    | '"' :: inner => (readString inner []).map (fun r => .string (String.mk r.1))
    | 't' :: _ => some (.bool true)
    | 'f' :: _ => some (.bool false)
    | 'n' :: _ => some .null
    | _ => some (.number (consumed cs rest))

/-- The folding of field names and keys: two names match when they are equal
after folding.  The letters of the Latin alphabet fold to upper case, and so do
the two other characters whose case orbit holds such a letter. -/
def foldChar (c : Char) : Char :=
  if 'a' ≤ c ∧ c ≤ 'z' then Char.ofNat (c.toNat - 32)
  else if c = Char.ofNat 0x17F then 'S'
  else if c = Char.ofNat 0x212A then 'K'
  else c

def foldName (name : String) : List Char :=
  name.toList.map foldChar

def invalidText : StdError := ⟨"invalid character in JSON input"⟩

def typeMismatch : StdError := ⟨"json: cannot unmarshal value into Go value"⟩

/-- Decoding into a `string`. -/
def intoString (data : String) (old : String) : String × Option StdError :=
  match parse data with
  | none => (old, some invalidText)
  | some (.string s) => (s, none)
  | some .null => (old, none)
  | some _ => (old, some typeMismatch)

/-- The value of a literal of decimal digits with an optional sign. -/
def parseInt (literal : String) : Option Int :=
  match literal.toList with
  | '-' :: digits =>
    if digits ≠ [] ∧ digits.all Char.isDigit then
      some (-(digits.foldl (fun n c => 10 * n + (c.toNat - 48)) 0 : Nat))
    else none
  | digits =>
    if digits ≠ [] ∧ digits.all Char.isDigit then
      some (digits.foldl (fun n c => 10 * n + (c.toNat - 48)) 0 : Nat)
    else none

/-- Decoding into an `int`. -/
def intoInt (data : String) (old : Int) : Int × Option StdError :=
  match parse data with
  | none => (old, some invalidText)
  | some (.number literal) =>
    match parseInt literal with
    | some n =>
      if -9223372036854775808 ≤ n ∧ n ≤ 9223372036854775807 then (n, none)
      else (old, some typeMismatch)
    | none => (old, some typeMismatch)
  | some .null => (old, none)
  | some _ => (old, some typeMismatch)

/-- The error that a call keeps: the first one. -/
def keepFirst (kept new : Option StdError) : Option StdError :=
  match kept with
  | some err => some err
  | none => new

/-- Decoding into `struct { Code int; Message string }`, member by member. -/
def intoAPIResponseMembers :
    List (String × RawMessage) → APIResponse × Option StdError → APIResponse × Option StdError
  | [], state => state
  | (key, raw) :: rest, (v, kept) =>
    if foldName key = foldName "Code" then
      let r := intoInt raw v.Code
      intoAPIResponseMembers rest (⟨r.1, v.Message⟩, keepFirst kept r.2)
    else if foldName key = foldName "Message" then
      let r := intoString raw v.Message
      intoAPIResponseMembers rest (⟨v.Code, r.1⟩, keepFirst kept r.2)
    else intoAPIResponseMembers rest (v, kept)

def intoAPIResponse (data : String) (old : APIResponse) : APIResponse × Option StdError :=
  match parse data with
  | none => (old, some invalidText)
  | some (.object members) => intoAPIResponseMembers members (old, none)
  | some .null => (old, none)
  | some _ => (old, some typeMismatch)

/-- Decoding into `Artifact`, member by member, by the names of its json tags. -/
def intoArtifactMembers :
    List (String × RawMessage) → Artifact × Option StdError → Artifact × Option StdError
  | [], state => state
  | (key, raw) :: rest, (v, kept) =>
    if foldName key = foldName "display-name" then
      let r := intoString raw v.DisplayName
      intoArtifactMembers rest (⟨r.1, v.ResourceName⟩, keepFirst kept r.2)
    else if foldName key = foldName "resource-name" then
      let r := intoString raw v.ResourceName
      intoArtifactMembers rest (⟨v.DisplayName, r.1⟩, keepFirst kept r.2)
    else intoArtifactMembers rest (v, kept)

def intoArtifact (data : String) (old : Artifact) : Artifact × Option StdError :=
  match parse data with
  | none => (old, some invalidText)
  | some (.object members) => intoArtifactMembers members (old, none)
  | some .null => (old, none)
  | some _ => (old, some typeMismatch)

/-- Storing a member in a map: a later member replaces an earlier one of the
same key. -/
def store (m : ObjMap) (member : String × RawMessage) : ObjMap :=
  member :: m.filter (fun old => old.1 ≠ member.1)

/-- Decoding into `map[string]json.RawMessage`. -/
def intoObjMap (data : String) (old : ObjMap) : ObjMap × Option StdError :=
  match parse data with
  | none => (old, some invalidText)
  | some (.object members) => (members.foldl store old, none)
  | some .null => (old, none)
  | some _ => (old, some typeMismatch)

def decoder : JSONDecoder :=
  ⟨intoAPIResponse, intoArtifact, intoObjMap, intoString⟩

end GoJSON

/-- A path element without the slashes at its ends. -/
def trimSlashes (s : String) : String :=
  String.mk ((s.toList.dropWhile (· = '/')).reverse.dropWhile (· = '/')).reverse

/-- The join of a base URL and path elements that need no further cleaning. -/
def joinElements (base : String) (elem : List String) : String :=
  String.mk (base.toList.reverse.dropWhile (· = '/')).reverse ++ "/"
    ++ String.intercalate "/" (elem.map trimSlashes)

/-- An environment for worked examples: every URL joins and every request is
well formed, and the server is the function `server`. -/
def exampleEnv (server : Request → Except StdError Response) : Env where
  json := GoJSON.decoder
  JoinPath := fun base elem => .ok (joinElements base elem)
  NewRequestWithContext := fun _ _ => none
  Do := fun _ req => server req
  PrettyString := fun objmap => toString (objmap.map (·.1))

def exampleClient : APIClient :=
  ⟨"https://app.example.com", "cifuzz/1.0 linux-amd64"⟩

/-- A server that answers every request with the same response. -/
def answering (resp : Response) : Request → Except StdError Response :=
  fun _ => .ok resp

/-- A server that cannot be reached: no request obtains a response. -/
def failing (err : StdError) : Request → Except StdError Response :=
  fun _ => .error err

def unauthorizedResponse : Response :=
  ⟨"401 Unauthorized", 401, ⟨"\x7b\"code\":16,\"message\":\"invalid token\"\x7d", none⟩⟩

def plainTextResponse : Response :=
  ⟨"502 Bad Gateway", 502, ⟨"upstream down", none⟩⟩

def brokenBodyResponse : Response :=
  ⟨"500 Internal Server Error", 500, ⟨"", some ⟨"unexpected EOF"⟩⟩⟩

def connectionRefused : StdError :=
  ⟨"dial tcp 127.0.0.1:443: connect: connection refused"⟩

/-- A call during which no signal arrives and the file is read to its end. -/
def quietRun (order : JoinOrder) : UploadRun where
  signal := none
  CreateFormFile := fun _ _ => none
  Stat := fun _ => none
  Open := fun _ => none
  Copy := fun _ => none
  FormDataContentType := "multipart/form-data; boundary=b0"
  order := order

/-- A call whose request is answered before the file is sent whole: the issuer
returns first and closes the read end of the pipe under the producer. -/
def answeredEarlyRun : UploadRun where
  signal := none
  CreateFormFile := fun _ _ => none
  Stat := fun _ => none
  Open := fun _ => none
  Copy := fun _ => some ⟨"io: read/write on closed pipe"⟩
  FormDataContentType := "multipart/form-data; boundary=b0"
  order := .issuerProducerSignal

def artifactJSON : String :=
  "\x7b\"display-name\":\"bundle.tar\",\"resource-name\":\"projects/p1/artifacts/a1\"\x7d"

def okResponse : Response :=
  ⟨"200 OK", 200, ⟨artifactJSON, none⟩⟩

def createdResponse : Response :=
  ⟨"201 Created", 201, ⟨artifactJSON, none⟩⟩

def noContentResponse : Response :=
  ⟨"204 No Content", 204, ⟨"", none⟩⟩

def cutOffResponse : Response :=
  ⟨"200 OK", 200, ⟨"\x7b\"display-name\":\"bun", some ⟨"unexpected EOF"⟩⟩⟩

def uploadURL : String :=
  "https://app.example.com/v2/projects/p1/artifacts/import"

def exampleArtifact : Artifact :=
  ⟨"bundle.tar", "projects/p1/artifacts/a1"⟩

def runStartedResponse : Response :=
  ⟨"200 OK", 200, ⟨"\x7b\"name\":\"projects/p1/runs/r1\"\x7d", none⟩⟩

def runWithoutNameResponse : Response :=
  ⟨"200 OK", 200, ⟨"\x7b\"id\":\"r1\"\x7d", none⟩⟩

def contextCanceled : StdError :=
  ⟨"Post \"https://app.example.com/v2/projects/p1/artifacts/import\": context canceled"⟩

/-- A call that is interrupted by SIGINT while the file is sent: the signal
handler returns first, the request is cancelled, and the producer finds the
pipe closed. -/
def interruptedRun : UploadRun where
  signal := some 2
  CreateFormFile := fun _ _ => none
  Stat := fun _ => none
  Open := fun _ => none
  Copy := fun _ => some ⟨"io: read/write on closed pipe"⟩
  FormDataContentType := "multipart/form-data; boundary=b0"
  order := .signalIssuerProducer

/-- A call for a file that does not exist, interrupted by SIGTERM before the
producer returns. -/
def interruptedMissingFileRun : UploadRun where
  signal := some 15
  CreateFormFile := fun _ _ => none
  Stat := fun _ => some ⟨"stat bundle.tar: no such file or directory"⟩
  Open := fun _ => none
  Copy := fun _ => none
  FormDataContentType := "multipart/form-data; boundary=b0"
  order := .signalProducerIssuer

/-- A call for a file that cannot be read to its end. -/
def unreadableFileRun : UploadRun where
  signal := none
  CreateFormFile := fun _ _ => none
  Stat := fun _ => none
  Open := fun _ => none
  Copy := fun _ => some ⟨"read bundle.tar: input/output error"⟩
  FormDataContentType := "multipart/form-data; boundary=b0"
  order := .producerIssuerSignal

/-! ## Server URLs

`validateURL` reads the scheme that `url.Parse` finds, and
`ValidateAndNormalizeServerURL` returns what `url.JoinPath` prints, so these two
functions need the inside of net/url.  `NetURL.Parse` and `NetURL.JoinPath`
follow the functions `Parse`, `parse`, `getScheme` and `JoinPath` of that
library as far as the scheme goes; everything below the scheme (authority, path,
query, fragment, path cleaning, printing) is a field of `NetURL`, and the
theorems hold for every `NetURL`. -/

/-- The fields of `url.URL` that `Parse` fills and `String` prints. -/
structure URL where
  Scheme : String
  Opaque : String
  Host : String
  Path : String
  RawQuery : String
  Fragment : String
deriving DecidableEq, Repr

/-- The parts of net/url below the scheme. -/
structure NetURL where
  /-- the rest of `parse` once the scheme is split off: from the scheme in lower
  case and the text after it, the URL or the error; the scheme of the URL is
  set by `parse` itself -/
  parseRest : String → String → Except StdError URL
  /-- `setFragment`: the fragment of the URL, or the error -/
  setFragment : String → Except StdError String
  /-- the path that the method `JoinPath` hands to `setPath` -/
  joinedPath : URL → List String → String
  /-- what the method `String` writes after the scheme and its colon -/
  afterScheme : URL → String

/-- `stringContainsCTLByte`. -/
def hasControlByte (cs : List Char) : Bool :=
  cs.any (fun c => c.toNat < 32 || c.toNat = 127)

/-- `strings.Cut(rawURL, "#")`: the text before the first `#` and the text after
it. -/
def cutFragment (cs : List Char) : List Char × List Char :=
  (cs.takeWhile (fun c => c ≠ '#'), (cs.dropWhile (fun c => c ≠ '#')).drop 1)

def missingProtocolScheme : StdError := ⟨"missing protocol scheme"⟩

/-- The loop of `getScheme` at the characters `cs` of `rawURL`, with the
characters before them in `seen`, the last one first. -/
def getSchemeFrom (rawURL : List Char) :
    List Char → List Char → Except StdError (List Char × List Char)
  | [], _ => .ok ([], rawURL)
  | c :: rest, seen =>
    if c.isAlpha then getSchemeFrom rawURL rest (c :: seen)
    else if c.isDigit || c = '+' || c = '-' || c = '.' then
      if seen = [] then .ok ([], rawURL) else getSchemeFrom rawURL rest (c :: seen)
    else if c = ':' then
      if seen = [] then .error missingProtocolScheme else .ok (seen.reverse, rest)
    else .ok ([], rawURL)

/-- `getScheme(rawURL)`: the scheme and the text after its colon. -/
def getScheme (rawURL : List Char) : Except StdError (List Char × List Char) :=
  getSchemeFrom rawURL rawURL []

/-- `parse(rawURL, false)`. -/
def NetURL.parse (net : NetURL) (rawURL : List Char) : Except StdError URL :=
  if hasControlByte rawURL then .error ⟨"net/url: invalid control character in URL"⟩
  else if rawURL = ['*'] then .ok ⟨"", "", "", "*", "", ""⟩
  else
    match getScheme rawURL with
    | .error err => .error err
    | .ok (scheme, rest) =>
      let scheme := String.mk (scheme.map Char.toLower)
      match net.parseRest scheme (String.mk rest) with
      | .error err => .error err
      | .ok url => .ok { url with Scheme := scheme }

/-- The `*url.Error` that `Parse` returns.  No statement below reads its text. -/
def parseError (text : List Char) (err : StdError) : StdError :=
  ⟨"parse \"" ++ String.mk text ++ "\": " ++ err.msg⟩

/-- `url.Parse(rawURL)`. -/
def NetURL.Parse (net : NetURL) (rawURL : String) : Except StdError URL :=
  let cut := cutFragment rawURL.toList
  match net.parse cut.1 with
  | .error err => .error (parseError cut.1 err)
  | .ok url =>
    if cut.2 = [] then .ok url else
    match net.setFragment (String.mk cut.2) with
    | .error err => .error (parseError rawURL.toList err)
    | .ok frag => .ok { url with Fragment := frag }

/-- The method `(*URL).JoinPath`: a copy of the URL with the joined path. -/
def NetURL.URLJoinPath (net : NetURL) (u : URL) (elem : List String) : URL :=
  { u with Path := net.joinedPath u elem }

/-- The method `(*URL).String`: the scheme and a colon, when there is a scheme,
and then the rest. -/
def NetURL.URLString (net : NetURL) (u : URL) : String :=
  (if u.Scheme ≠ "" then u.Scheme ++ ":" else "") ++ net.afterScheme u

/-- `url.JoinPath(base, elem...)`: `Parse`, then the two methods. -/
def NetURL.JoinPath (net : NetURL) (base : String) (elem : List String) :
    Except StdError String :=
  match net.Parse base with
  | .error err => .error err
  | .ok u => .ok (net.URLString (net.URLJoinPath u elem))

def validateURL (net : NetURL) (s : String) : Option GoError :=
  match net.Parse s with
  | .error err => some (.withStack (.std err))
  | .ok u =>
    if u.Scheme ≠ "http" ∧ u.Scheme ≠ "https" then
      some (.fundamental ("unsupported protocol scheme \"" ++ u.Scheme ++ "\""))
    else none

/-- `ValidateAndNormalizeServerURL`.  When `validateURL(server)` fails, the error
of `validateURL("https://" + server)` is logged and dropped, and the function
goes on with `"https://" + server` in both cases. -/
def ValidateAndNormalizeServerURL (net : NetURL) (server : String) :
    String × Option GoError :=
  let server :=
    match validateURL net server with
    | some _ => "https://" ++ server
    | none => server
  match net.JoinPath server [] with
  | .error err => ("", some (.std err))
  | .ok url => (url, none)

/-! ### A library for worked examples

`exampleNetURL` fills the fields of `NetURL` for URLs of the form
`scheme://host/path?query#fragment`.  The theorems do not depend on it. -/

/-- A path without repeated slashes. -/
def collapseSlashes : Bool → List Char → List Char
  | _, [] => []
  | afterSlash, c :: rest =>
    if c = '/' then
      if afterSlash then collapseSlashes true rest else c :: collapseSlashes true rest
    else c :: collapseSlashes false rest

def exampleParseRest (scheme rest : String) : Except StdError URL :=
  let cs := rest.toList
  let path := cs.takeWhile (fun c => c ≠ '?')
  let query := String.mk ((cs.dropWhile (fun c => c ≠ '?')).drop 1)
  match path with
  | '/' :: '/' :: more =>
    let host := more.takeWhile (fun c => c ≠ '/')
    if host.any (fun c => c = ' ') then .error ⟨"invalid character \" \" in host name"⟩
    else .ok ⟨scheme, "", String.mk host, String.mk (more.dropWhile (fun c => c ≠ '/')),
      query, ""⟩
  | '/' :: _ => .ok ⟨scheme, "", "", String.mk path, query, ""⟩
  | _ =>
    if scheme ≠ "" then .ok ⟨scheme, String.mk path, "", "", query, ""⟩
    else .ok ⟨scheme, "", "", String.mk path, query, ""⟩

def exampleJoinedPath (u : URL) (elem : List String) : String :=
  let joined := collapseSlashes false (String.intercalate "/" (u.Path :: elem)).toList
  if joined = [] then "/" else String.mk joined

def exampleAfterScheme (u : URL) : String :=
  if u.Opaque ≠ "" then u.Opaque
  else
    "//" ++ u.Host ++ u.Path ++ (if u.RawQuery ≠ "" then "?" ++ u.RawQuery else "")
      ++ (if u.Fragment ≠ "" then "#" ++ u.Fragment else "")

def exampleNetURL : NetURL :=
  ⟨exampleParseRest, fun frag => .ok frag, exampleJoinedPath, exampleAfterScheme⟩

/-! ## Theorems -/

/-- `errorsAs` walks the chain of `Unwrap`: it stops at the first error of the
type of the target and goes on with `err.Unwrap()` otherwise. -/
theorem errorsAs_unwrap (isTarget : GoError → Bool) (err : GoError) :
    errorsAs isTarget err
      = if isTarget err then some err
        else match err.Unwrap with
          | some inner => errorsAs isTarget inner
          | none => none := by
  cases err <;> simp [errorsAs, GoError.Unwrap]

theorem responseToAPIError_unreadable (env : Env) (resp : Response) (e : StdError)
    (hread : resp.Body.err = some e) :
    responseToAPIError env resp = .APIError (.fundamental resp.Status) resp.StatusCode := by
  simp [responseToAPIError, hread]

theorem responseToAPIError_undecodable (env : Env) (resp : Response) (v : APIResponse)
    (e : StdError) (hread : resp.Body.err = none)
    (hdec : env.json.intoAPIResponse resp.Body.data ⟨0, ""⟩ = (v, some e)) :
    responseToAPIError env resp
      = .APIError (.fundamental (resp.Status ++ ": " ++ resp.Body.data)) resp.StatusCode := by
  simp [responseToAPIError, hread, hdec]

theorem responseToAPIError_decoded (env : Env) (resp : Response) (v : APIResponse)
    (hread : resp.Body.err = none)
    (hdec : env.json.intoAPIResponse resp.Body.data ⟨0, ""⟩ = (v, none)) :
    responseToAPIError env resp
      = .APIError (.fundamental (resp.Status ++ ": " ++ v.Message)) resp.StatusCode := by
  simp [responseToAPIError, hread, hdec]

/-- Every result of `responseToAPIError` is an `*APIError` with the status code
of the response. -/
theorem responseToAPIError_shape (env : Env) (resp : Response) :
    ∃ err, responseToAPIError env resp = .APIError err resp.StatusCode := by
  cases hread : resp.Body.err with
  | some e => exact ⟨_, responseToAPIError_unreadable env resp e hread⟩
  | none =>
    rcases hdec : env.json.intoAPIResponse resp.Body.data ⟨0, ""⟩ with ⟨v, _ | e⟩
    · exact ⟨_, responseToAPIError_decoded env resp v hread hdec⟩
    · exact ⟨_, responseToAPIError_undecodable env resp v e hread hdec⟩

/-- C3: whichever branch `responseToAPIError` takes (body unreadable, body not
decodable, body decoded), the error it returns is an `*APIError` whose
`StatusCode` is the status code of the response. -/
theorem responseToAPIError_StatusCode (env : Env) (resp : Response) :
    ∃ err, responseToAPIError env resp = .APIError err resp.StatusCode ∧
      errorsAs isAPIError (responseToAPIError env resp)
        = some (.APIError err resp.StatusCode) := by
  obtain ⟨err, h⟩ := responseToAPIError_shape env resp
  exact ⟨err, h, by rw [h]; simp [errorsAs, isAPIError]⟩

theorem requestIssuer_of_response (env : Env) (client : APIClient) (run : UploadRun)
    (projectName token url : String) (resp : Response)
    (hurl : env.JoinPath client.Server ["v2", projectName, "artifacts", "import"] = .ok url)
    (hreq : env.NewRequestWithContext "POST" url = none)
    (hdo : env.Do 0 (uploadRequest client run url token) = .ok resp) :
    requestIssuer env client run projectName token
      = if resp.StatusCode ≠ 200 then ("", some (responseToAPIError env resp))
        else (resp.Body.data, WithStack (resp.Body.err.map .std)) := by
  simp [requestIssuer, hurl, hreq, hdo]

theorem requestIssuer_of_failure (env : Env) (client : APIClient) (run : UploadRun)
    (projectName token url : String) (e : StdError)
    (hurl : env.JoinPath client.Server ["v2", projectName, "artifacts", "import"] = .ok url)
    (hreq : env.NewRequestWithContext "POST" url = none)
    (hdo : env.Do 0 (uploadRequest client run url token) = .error e) :
    requestIssuer env client run projectName token = ("", some (.withStack (.std e))) := by
  simp [requestIssuer, hurl, hreq, hdo]

/-- The errgroup returns the error of the goroutine that reports first. -/
theorem Wait_of_reportsFirst (order : JoinOrder) (result : Phase → Option GoError)
    (p : Phase) (err : GoError) (hp : result p = some err)
    (hfirst : reportsFirst order result p) : Wait order result = some err := by
  cases order <;> cases p <;>
    simp [reportsFirst, JoinOrder.phases, List.takeWhile] at hfirst <;>
    simp [Wait, JoinOrder.phases, firstError, hp, hfirst]

theorem firstError_of_mem (results : List (Option GoError)) (err : GoError)
    (h : some err ∈ results) :
    ∃ first, firstError results = some first ∧ some first ∈ results := by
  induction results with
  | nil => simp at h
  | cons r rest ih =>
    cases r with
    | some e => exact ⟨e, rfl, by simp⟩
    | none =>
      have hrest : some err ∈ rest := by simpa using h
      obtain ⟨first, hf, hm⟩ := ih hrest
      exact ⟨first, by simpa [firstError] using hf, by simp [hm]⟩

theorem JoinOrder.mem_phases (order : JoinOrder) (p : Phase) : p ∈ order.phases := by
  cases order <;> cases p <;> simp [JoinOrder.phases]

/-- When a goroutine failed, the errgroup returns the error of a goroutine. -/
theorem Wait_isSome (order : JoinOrder) (result : Phase → Option GoError)
    (p : Phase) (err : GoError) (hp : result p = some err) :
    ∃ first, Wait order result = some first ∧ ∃ q, result q = some first := by
  have hmem : some err ∈ order.phases.map result :=
    List.mem_map.mpr ⟨p, order.mem_phases p, hp⟩
  obtain ⟨first, hf, hm⟩ := firstError_of_mem _ err hmem
  obtain ⟨q, _, hq⟩ := List.mem_map.mp hm
  exact ⟨first, hf, q, hq⟩

theorem UploadBundle_of_Wait_error (env : Env) (client : APIClient) (run : UploadRun)
    (path projectName token : String) (err : GoError)
    (h : Wait run.order (phaseResult env client run path projectName token) = some err) :
    UploadBundle env client run path projectName token = (none, some err) := by
  simp [UploadBundle, h]

/-- C4: the message of the `*APIError` that `responseToAPIError` returns for a
response with status text `S` and body `B` is `S` when reading the body fails,
`S: B` when `B` does not decode, and `S: M` when `B` decodes with message `M`.
Hence for a 401 answer to the upload whose body decodes with message `M`, the
`*APIError` of the request issuer, which `UploadBundle` returns when the issuer
is the first to fail, has `StatusCode` 401 and a message that contains `M`. -/
theorem responseToAPIError_message (env : Env) (resp : Response) :
    (∀ e, resp.Body.err = some e → (responseToAPIError env resp).Error = resp.Status) ∧
    (∀ v e, resp.Body.err = none →
      env.json.intoAPIResponse resp.Body.data ⟨0, ""⟩ = (v, some e) →
      (responseToAPIError env resp).Error = resp.Status ++ ": " ++ resp.Body.data) ∧
    (∀ v, resp.Body.err = none →
      env.json.intoAPIResponse resp.Body.data ⟨0, ""⟩ = (v, none) →
      (responseToAPIError env resp).Error = resp.Status ++ ": " ++ v.Message) ∧
    (∀ client run path projectName token url v,
      env.JoinPath client.Server ["v2", projectName, "artifacts", "import"] = .ok url →
      env.NewRequestWithContext "POST" url = none →
      env.Do 0 (uploadRequest client run url token) = .ok resp →
      resp.StatusCode = 401 → resp.Body.err = none →
      env.json.intoAPIResponse resp.Body.data ⟨0, ""⟩ = (v, none) →
      ∃ err,
        (requestIssuer env client run projectName token).2 = some (.APIError err 401) ∧
        (GoError.APIError err 401).Error = resp.Status ++ ": " ++ v.Message ∧
        v.Message.toList <:+: (GoError.APIError err 401).Error.toList ∧
        (reportsFirst run.order (phaseResult env client run path projectName token)
            .requestIssuer →
          UploadBundle env client run path projectName token
            = (none, some (.APIError err 401)))) := by
  refine ⟨?_, ?_, ?_, ?_⟩
  · intro e hread
    rw [responseToAPIError_unreadable env resp e hread]; rfl
  · intro v e hread hdec
    rw [responseToAPIError_undecodable env resp v e hread hdec]; rfl
  · intro v hread hdec
    rw [responseToAPIError_decoded env resp v hread hdec]; rfl
  · intro client run path projectName token url v hurl hreq hdo hstatus hread hdec
    have hissuer : (requestIssuer env client run projectName token).2
        = some (.APIError (.fundamental (resp.Status ++ ": " ++ v.Message)) 401) := by
      rw [requestIssuer_of_response env client run projectName token url resp hurl hreq hdo,
        responseToAPIError_decoded env resp v hread hdec, hstatus]
      simp
    refine ⟨_, hissuer, rfl, ?_, ?_⟩
    · show v.Message.toList <:+: (resp.Status ++ ": " ++ v.Message).toList
      rw [String.toList, String.toList, String.data_append]
      exact (List.suffix_append (resp.Status ++ ": ").data v.Message.data).isInfix
    · intro hfirst
      exact UploadBundle_of_Wait_error env client run path projectName token _
        (Wait_of_reportsFirst _ _ .requestIssuer _ hissuer hfirst)

/-- C4, worked examples: a response whose body cannot be read, one with a body
of plain text, one with a JSON body, and a 401 answer to an upload. -/
theorem responseToAPIError_message_witness :
    (responseToAPIError (exampleEnv (answering brokenBodyResponse)) brokenBodyResponse).Error
      = "500 Internal Server Error" ∧
    (responseToAPIError (exampleEnv (answering plainTextResponse)) plainTextResponse).Error
      = "502 Bad Gateway: upstream down" ∧
    (responseToAPIError (exampleEnv (answering unauthorizedResponse))
        unauthorizedResponse).Error
      = "401 Unauthorized: invalid token" ∧
    ∃ err,
      UploadBundle (exampleEnv (answering unauthorizedResponse)) exampleClient
          answeredEarlyRun "bundle.tar" "projects/p1" "token"
        = (none, some (.APIError err 401)) ∧
      "invalid token".toList <:+: (GoError.APIError err 401).Error.toList := by
  refine ⟨?_, ?_, ?_, ?_⟩
  · exact (responseToAPIError_message (exampleEnv (answering brokenBodyResponse))
      brokenBodyResponse).1 ⟨"unexpected EOF"⟩ rfl
  · exact (responseToAPIError_message (exampleEnv (answering plainTextResponse))
      plainTextResponse).2.1 ⟨0, ""⟩ GoJSON.invalidText rfl (by decide)
  · exact (responseToAPIError_message (exampleEnv (answering unauthorizedResponse))
      unauthorizedResponse).2.2.1 ⟨16, "invalid token"⟩ rfl (by decide)
  · obtain ⟨err, _, _, hinfix, hupload⟩ :=
      (responseToAPIError_message (exampleEnv (answering unauthorizedResponse))
        unauthorizedResponse).2.2.2 exampleClient answeredEarlyRun "bundle.tar"
        "projects/p1" "token" "https://app.example.com/v2/projects/p1/artifacts/import"
        ⟨16, "invalid token"⟩ rfl rfl rfl rfl rfl (by decide)
    exact ⟨err, hupload (by simp [reportsFirst, answeredEarlyRun, JoinOrder.phases]), hinfix⟩

/-- What `errors.As` finds has the type of the target. -/
theorem errorsAs_isTarget (isTarget : GoError → Bool) (err found : GoError)
    (h : errorsAs isTarget err = some found) : isTarget found = true := by
  induction err with
  | std e =>
    unfold errorsAs at h
    split at h
    · cases h; assumption
    · simp at h
  | fundamental msg =>
    unfold errorsAs at h
    split at h
    · cases h; assumption
    · simp at h
  | SignalError sig =>
    unfold errorsAs at h
    split at h
    · cases h; assumption
    · simp at h
  | withStack inner ih =>
    unfold errorsAs at h
    split at h
    · cases h; assumption
    · exact ih h
  | APIError inner code ih =>
    unfold errorsAs at h
    split at h
    · cases h; assumption
    · exact ih h
  | ConnectionError inner ih =>
    unfold errorsAs at h
    split at h
    · cases h; assumption
    · exact ih h
  | SilentError inner ih =>
    unfold errorsAs at h
    split at h
    · cases h; assumption
    · exact ih h

/-- The three ways in which `sendRequestWithTimeout` fails. -/
theorem sendRequestWithTimeout_error (env : Env) (client : APIClient)
    (method endpoint : String) (body : RequestBody) (token : String) (timeout : Int)
    (err : GoError)
    (h : sendRequestWithTimeout env client method endpoint body token timeout = .error err) :
    (∃ e, env.JoinPath client.Server [endpoint] = .error e ∧ err = .std e) ∨
    (∃ url e, env.JoinPath client.Server [endpoint] = .ok url ∧
      env.NewRequestWithContext method url = some e ∧ err = .withStack (.std e)) ∨
    (∃ url e, env.JoinPath client.Server [endpoint] = .ok url ∧
      env.NewRequestWithContext method url = none ∧
      env.Do timeout (authenticatedRequest client method url body token) = .error e ∧
      err = .ConnectionError (.withStack (.std e))) := by
  unfold sendRequestWithTimeout at h
  cases hurl : env.JoinPath client.Server [endpoint] with
  | error e =>
    rw [hurl] at h
    simp only [Except.error.injEq] at h
    exact Or.inl ⟨e, rfl, h.symm⟩
  | ok url =>
    rw [hurl] at h
    simp only at h
    cases hreq : env.NewRequestWithContext method url with
    | some e =>
      rw [hreq] at h
      simp only [Except.error.injEq] at h
      exact Or.inr (Or.inl ⟨url, e, rfl, hreq, h.symm⟩)
    | none =>
      rw [hreq] at h
      simp only at h
      cases hdo : env.Do timeout (authenticatedRequest client method url body token) with
      | error e =>
        rw [hdo] at h
        simp only [Except.error.injEq, WrapConnectionError] at h
        exact Or.inr (Or.inr ⟨url, e, rfl, hreq, hdo, h.symm⟩)
      | ok resp =>
        rw [hdo] at h
        simp at h

/-- C5: when the probe returns an error in which `errors.As` finds an
`*APIError` with `StatusCode` 401, `IsTokenValid` returns `(false, nil)`; when
the probe returns no error, it returns `(true, nil)`. -/
theorem IsTokenValid_unauthorized_or_valid (ListProjects : String → Option GoError)
    (token : String) :
    (∀ err inner, ListProjects token = some err →
      errorsAs isAPIError err = some (.APIError inner 401) →
      IsTokenValid ListProjects token = (false, none)) ∧
    (ListProjects token = none → IsTokenValid ListProjects token = (true, none)) := by
  constructor
  · intro err inner hprobe has
    simp [IsTokenValid, hprobe, has]
  · intro hprobe
    simp [IsTokenValid, hprobe]

/-- C5, worked examples: a probe answered with 401, and a probe that succeeds. -/
theorem IsTokenValid_unauthorized_or_valid_witness :
    IsTokenValid
        (fun _ => some (responseToAPIError (exampleEnv (answering unauthorizedResponse))
          unauthorizedResponse)) "token"
      = (false, none) ∧
    IsTokenValid (fun _ => none) "token" = (true, none) :=
  ⟨(IsTokenValid_unauthorized_or_valid _ "token").1 _
      (.fundamental "401 Unauthorized: invalid token") rfl (by decide),
    (IsTokenValid_unauthorized_or_valid (fun _ => none) "token").2 rfl⟩

/-- C6: an error of the probe in which `errors.As` finds no `*APIError` with
`StatusCode` 401 is returned unchanged, as `(false, e)`.  In particular a
`*ConnectionError` around an error without `*APIError` is returned as it is, and
so is every `*ConnectionError` that `sendRequestWithTimeout` produces. -/
theorem IsTokenValid_propagates (ListProjects : String → Option GoError)
    (token : String) (e : GoError) (hprobe : ListProjects token = some e) :
    ((∀ inner, errorsAs isAPIError e ≠ some (.APIError inner 401)) →
      IsTokenValid ListProjects token = (false, some e)) ∧
    (∀ inner, e = .ConnectionError inner → errorsAs isAPIError inner = none →
      IsTokenValid ListProjects token = (false, some e)) ∧
    (∀ env client method endpoint body tok timeout,
      sendRequestWithTimeout env client method endpoint body tok timeout = .error e →
      errorsAs isConnectionError e ≠ none →
      IsTokenValid ListProjects token = (false, some e)) := by
  have main : (∀ inner, errorsAs isAPIError e ≠ some (.APIError inner 401)) →
      IsTokenValid ListProjects token = (false, some e) := by
    intro hno
    cases has : errorsAs isAPIError e with
    | none => simp [IsTokenValid, hprobe, has]
    | some found =>
      cases found with
      | APIError inner code =>
        have hcode : code ≠ 401 := by
          rintro rfl
          exact hno inner has
        simp [IsTokenValid, hprobe, has, hcode]
      | _ => simp [IsTokenValid, hprobe, has]
  refine ⟨main, ?_, ?_⟩
  · rintro inner rfl hinner
    apply main
    intro x hx
    simp [errorsAs, isAPIError, hinner] at hx
  · intro env client method endpoint body tok timeout hsend hconn
    apply main
    intro x hx
    rcases sendRequestWithTimeout_error env client method endpoint body tok timeout e hsend
      with ⟨s, _, rfl⟩ | ⟨url, s, _, _, rfl⟩ | ⟨url, s, _, _, _, rfl⟩ <;>
      simp [errorsAs, isAPIError] at hx

/-- C6, worked examples: a probe answered with 500, and a probe whose server
cannot be reached. -/
theorem IsTokenValid_propagates_witness :
    IsTokenValid
        (fun _ => some (responseToAPIError (exampleEnv (answering brokenBodyResponse))
          brokenBodyResponse)) "token"
      = (false, some (.APIError (.fundamental "500 Internal Server Error") 500)) ∧
    IsTokenValid
        (fun _ => some (.ConnectionError (.withStack (.std connectionRefused)))) "token"
      = (false, some (.ConnectionError (.withStack (.std connectionRefused)))) ∧
    IsTokenValid (fun _ => some (.ConnectionError (.fundamental "no route to host"))) "token"
      = (false, some (.ConnectionError (.fundamental "no route to host"))) :=
  ⟨(IsTokenValid_propagates _ "token" _ rfl).1 (by
      intro inner h
      simp [errorsAs, isAPIError] at h),
    (IsTokenValid_propagates
      (fun _ => some (.ConnectionError (.withStack (.std connectionRefused)))) "token" _
      rfl).2.2 (exampleEnv (failing connectionRefused)) exampleClient "GET" "v1/projects"
      .empty "token" (30 * Second) rfl (by decide),
    (IsTokenValid_propagates
      (fun _ => some (.ConnectionError (.fundamental "no route to host"))) "token" _
      rfl).2.1 (.fundamental "no route to host") rfl rfl⟩

/-- C7: `sendRequestWithTimeout` returns an error in which `errors.As` finds a
`*ConnectionError` exactly when the request was built and `httpClient.Do` did
not obtain a response; when `Do` obtains a response, that response is returned
as it is with a nil error, whatever its status code; and `sendRequest` is
`sendRequestWithTimeout` with a timeout of 30 seconds. -/
theorem sendRequestWithTimeout_ConnectionError_iff (env : Env) (client : APIClient)
    (method endpoint : String) (body : RequestBody) (token : String) (timeout : Int) :
    ((∃ err, sendRequestWithTimeout env client method endpoint body token timeout
          = .error err ∧ errorsAs isConnectionError err ≠ none) ↔
      ∃ url e, env.JoinPath client.Server [endpoint] = .ok url ∧
        env.NewRequestWithContext method url = none ∧
        env.Do timeout (authenticatedRequest client method url body token) = .error e) ∧
    (∀ url resp, env.JoinPath client.Server [endpoint] = .ok url →
      env.NewRequestWithContext method url = none →
      env.Do timeout (authenticatedRequest client method url body token) = .ok resp →
      sendRequestWithTimeout env client method endpoint body token timeout = .ok resp) ∧
    sendRequest env client method endpoint body token
      = sendRequestWithTimeout env client method endpoint body token 30000000000 := by
  refine ⟨⟨?_, ?_⟩, ?_, rfl⟩
  · rintro ⟨err, hsend, hconn⟩
    rcases sendRequestWithTimeout_error env client method endpoint body token timeout err
      hsend with ⟨s, _, rfl⟩ | ⟨url, s, _, _, rfl⟩ | ⟨url, s, hurl, hreq, hdo, rfl⟩
    · simp [errorsAs, isConnectionError] at hconn
    · simp [errorsAs, isConnectionError] at hconn
    · exact ⟨url, s, hurl, hreq, hdo⟩
  · rintro ⟨url, e, hurl, hreq, hdo⟩
    refine ⟨.ConnectionError (.withStack (.std e)), ?_, ?_⟩
    · simp [sendRequestWithTimeout, hurl, hreq, hdo, WrapConnectionError]
    · simp [errorsAs, isConnectionError]
  · intro url resp hurl hreq hdo
    simp [sendRequestWithTimeout, hurl, hreq, hdo]

/-- C7, worked examples: a server that cannot be reached gives a
`*ConnectionError`, and a 401 answer is returned as a response. -/
theorem sendRequestWithTimeout_ConnectionError_iff_witness :
    (∃ err, sendRequestWithTimeout (exampleEnv (failing connectionRefused)) exampleClient
        "GET" "v1/projects" .empty "token" 30000000000 = .error err ∧
      errorsAs isConnectionError err ≠ none) ∧
    sendRequestWithTimeout (exampleEnv (answering unauthorizedResponse)) exampleClient
        "GET" "v1/projects" .empty "token" 30000000000 = .ok unauthorizedResponse :=
  ⟨(sendRequestWithTimeout_ConnectionError_iff (exampleEnv (failing connectionRefused))
      exampleClient "GET" "v1/projects" .empty "token" 30000000000).1.mpr
      ⟨"https://app.example.com/v1/projects", connectionRefused, rfl, rfl, rfl⟩,
    (sendRequestWithTimeout_ConnectionError_iff (exampleEnv (answering unauthorizedResponse))
      exampleClient "GET" "v1/projects" .empty "token" 30000000000).2.1
      "https://app.example.com/v1/projects" unauthorizedResponse rfl rfl rfl⟩

/-- C2 as stated fails: a 201 answer to the upload is a 2xx response, and the
request issuer turns it into an `*APIError`; so it does with a 204 answer. -/
theorem requestIssuer_created_is_APIError :
    requestIssuer (exampleEnv (answering createdResponse)) exampleClient
        (quietRun .issuerProducerSignal) "projects/p1" "token"
      = ("", some (.APIError (.fundamental "201 Created: ") 201)) ∧
    requestIssuer (exampleEnv (answering noContentResponse)) exampleClient
        (quietRun .issuerProducerSignal) "projects/p1" "token"
      = ("", some (.APIError (.fundamental "204 No Content: ") 204)) := by
  constructor <;> decide

/-- C2, amended: for every response that the request issuer receives, if the
status code is 200 and the body is read without error, the body is the payload
and the issuer returns no error; if the status code is 200 and reading the body
fails, the issuer returns the read error; and if the status code is not 200, the
issuer returns the `*APIError` of `responseToAPIError`. -/
theorem requestIssuer_status (env : Env) (client : APIClient) (run : UploadRun)
    (projectName token url : String) (resp : Response)
    (hurl : env.JoinPath client.Server ["v2", projectName, "artifacts", "import"] = .ok url)
    (hreq : env.NewRequestWithContext "POST" url = none)
    (hdo : env.Do 0 (uploadRequest client run url token) = .ok resp) :
    (resp.StatusCode = 200 → resp.Body.err = none →
      requestIssuer env client run projectName token = (resp.Body.data, none)) ∧
    (∀ e, resp.StatusCode = 200 → resp.Body.err = some e →
      (requestIssuer env client run projectName token).2 = some (.withStack (.std e))) ∧
    (resp.StatusCode ≠ 200 →
      requestIssuer env client run projectName token
        = ("", some (responseToAPIError env resp)) ∧
      ∃ err, responseToAPIError env resp = .APIError err resp.StatusCode) := by
  rw [requestIssuer_of_response env client run projectName token url resp hurl hreq hdo]
  refine ⟨?_, ?_, ?_⟩
  · intro hstatus hread
    simp [hstatus, hread, WithStack]
  · intro e hstatus hread
    simp [hstatus, hread, WithStack]
  · intro hstatus
    exact ⟨by simp [hstatus], responseToAPIError_shape env resp⟩

/-- C2, amended, worked examples: a 200 answer, a 200 answer whose body breaks
off, and a 401 answer. -/
theorem requestIssuer_status_witness :
    requestIssuer (exampleEnv (answering okResponse)) exampleClient
        (quietRun .issuerProducerSignal) "projects/p1" "token"
      = (artifactJSON, none) ∧
    (requestIssuer (exampleEnv (answering cutOffResponse)) exampleClient
        (quietRun .issuerProducerSignal) "projects/p1" "token").2
      = some (.withStack (.std ⟨"unexpected EOF"⟩)) ∧
    requestIssuer (exampleEnv (answering unauthorizedResponse)) exampleClient
        (quietRun .issuerProducerSignal) "projects/p1" "token"
      = ("", some (responseToAPIError (exampleEnv (answering unauthorizedResponse))
          unauthorizedResponse)) :=
  ⟨(requestIssuer_status (exampleEnv (answering okResponse)) exampleClient
      (quietRun .issuerProducerSignal) "projects/p1" "token" uploadURL okResponse
      rfl rfl rfl).1 rfl rfl,
    (requestIssuer_status (exampleEnv (answering cutOffResponse)) exampleClient
      (quietRun .issuerProducerSignal) "projects/p1" "token" uploadURL cutOffResponse
      rfl rfl rfl).2.1 ⟨"unexpected EOF"⟩ rfl rfl,
    ((requestIssuer_status (exampleEnv (answering unauthorizedResponse)) exampleClient
      (quietRun .issuerProducerSignal) "projects/p1" "token" uploadURL unauthorizedResponse
      rfl rfl rfl).2.2 (by decide)).1⟩

/-- C8: for a 200 answer to the run-start request whose body decodes as a JSON
object, `StartRemoteFuzzingRun` returns `(s, nil)` when the object has a "name"
member that decodes as the string `s`; when the object has no "name" member, it
returns the empty string and the error "Server response doesn't include run
name", wrapped as a silent error. -/
theorem StartRemoteFuzzingRun_name (env : Env) (client : APIClient) (artifact : Artifact)
    (token url : String) (resp : Response) (objmap : ObjMap)
    (hurl : env.JoinPath "/v1" [artifact.ResourceName ++ ":run"] = .ok url)
    (hsend : sendRequest env client "POST" url .empty token = .ok resp)
    (hstatus : resp.StatusCode = 200)
    (hread : resp.Body.err = none)
    (hobj : env.json.intoObjMap resp.Body.data [] = (objmap, none)) :
    (∀ raw s, objmap.lookup "name" = some raw → env.json.intoString raw "" = (s, none) →
      StartRemoteFuzzingRun env client artifact token = (s, none)) ∧
    (objmap.lookup "name" = none →
      StartRemoteFuzzingRun env client artifact token
        = ("", some (.SilentError (.fundamental
            ("Server response doesn't include run name: " ++ env.PrettyString objmap))))) := by
  constructor
  · intro raw s hname hstr
    simp [StartRemoteFuzzingRun, hurl, hsend, hstatus, hread, hobj, hname, hstr]
  · intro hname
    simp [StartRemoteFuzzingRun, hurl, hsend, hstatus, hread, hobj, hname]

/-- C8, worked examples: the body `{"name":"projects/p1/runs/r1"}` gives the run
name `projects/p1/runs/r1`, and the body `{"id":"r1"}` gives a silent error. -/
theorem StartRemoteFuzzingRun_name_witness :
    StartRemoteFuzzingRun (exampleEnv (answering runStartedResponse)) exampleClient
        exampleArtifact "token"
      = ("projects/p1/runs/r1", none) ∧
    StartRemoteFuzzingRun (exampleEnv (answering runWithoutNameResponse)) exampleClient
        exampleArtifact "token"
      = ("", some (.SilentError (.fundamental
          "Server response doesn't include run name: [id]"))) :=
  ⟨(StartRemoteFuzzingRun_name (exampleEnv (answering runStartedResponse)) exampleClient
      exampleArtifact "token" "/v1/projects/p1/artifacts/a1:run" runStartedResponse
      [("name", "\"projects/p1/runs/r1\"")] rfl rfl rfl rfl (by decide)).1
      "\"projects/p1/runs/r1\"" "projects/p1/runs/r1" rfl (by decide),
    (StartRemoteFuzzingRun_name (exampleEnv (answering runWithoutNameResponse)) exampleClient
      exampleArtifact "token" "/v1/projects/p1/artifacts/a1:run" runWithoutNameResponse
      [("id", "\"r1\"")] rfl rfl rfl rfl (by decide)).2 rfl⟩

theorem Wait_none (order : JoinOrder) (result : Phase → Option GoError)
    (h : ∀ p, result p = none) : Wait order result = none := by
  cases order <;> simp [Wait, JoinOrder.phases, firstError, h]

/-- An error of the body producer is an error of the standard library with a
stack. -/
theorem bodyProducer_error (run : UploadRun) (path : String) (err : GoError)
    (h : bodyProducer run path = some err) : ∃ e, err = .withStack (.std e) := by
  unfold bodyProducer at h
  cases hc : run.CreateFormFile "fuzzing-artifacts" path with
  | some e => rw [hc] at h; exact ⟨e, by simpa using h.symm⟩
  | none =>
    rw [hc] at h
    cases hs : run.Stat path with
    | some e => rw [hs] at h; exact ⟨e, by simpa using h.symm⟩
    | none =>
      rw [hs] at h
      cases ho : run.Open path with
      | some e => rw [ho] at h; exact ⟨e, by simpa using h.symm⟩
      | none =>
        rw [ho] at h
        cases hcp : run.Copy path with
        | some e => rw [hcp] at h; exact ⟨e, by simpa [WithStack] using h.symm⟩
        | none => rw [hcp] at h; simp [WithStack] at h

/-- C9: when the three goroutines return no error and the issuer leaves the
body `B`: if `B` decodes as the artifact with display name `d` and resource
name `r`, `UploadBundle` returns that artifact and a nil error; if decoding `B`
fails, `UploadBundle` returns no artifact and an error in which `errors.As`
finds neither an `*APIError` nor a `*ConnectionError`. -/
theorem UploadBundle_decodes_artifact (env : Env) (client : APIClient) (run : UploadRun)
    (path projectName token B : String)
    (hsignal : signalHandler run = none)
    (hproducer : bodyProducer run path = none)
    (hissuer : requestIssuer env client run projectName token = (B, none)) :
    (∀ d r, env.json.intoArtifact B ⟨"", ""⟩ = (⟨d, r⟩, none) →
      UploadBundle env client run path projectName token = (some ⟨d, r⟩, none)) ∧
    (∀ a e, env.json.intoArtifact B ⟨"", ""⟩ = (a, some e) →
      ∃ err, UploadBundle env client run path projectName token = (none, some err) ∧
        errorsAs isAPIError err = none ∧ errorsAs isConnectionError err = none) := by
  have hwait : Wait run.order (phaseResult env client run path projectName token) = none := by
    apply Wait_none
    intro p
    cases p <;> simp [phaseResult, hsignal, hproducer, hissuer]
  constructor
  · intro d r hdec
    simp [UploadBundle, hwait, hissuer, hdec]
  · intro a e hdec
    refine ⟨.SilentError (.withStack (.std e)), ?_, ?_, ?_⟩
    · simp [UploadBundle, hwait, hissuer, hdec]
    · simp [errorsAs, isAPIError]
    · simp [errorsAs, isConnectionError]

/-- C9, worked examples: the body
`{"display-name":"bundle.tar","resource-name":"projects/p1/artifacts/a1"}`
gives the artifact with these two names, and a 200 answer without a body gives
a silent error. -/
theorem UploadBundle_decodes_artifact_witness :
    UploadBundle (exampleEnv (answering okResponse)) exampleClient
        (quietRun .producerIssuerSignal) "bundle.tar" "projects/p1" "token"
      = (some ⟨"bundle.tar", "projects/p1/artifacts/a1"⟩, none) ∧
    ∃ err, UploadBundle (exampleEnv (answering ⟨"200 OK", 200, ⟨"", none⟩⟩)) exampleClient
        (quietRun .producerIssuerSignal) "bundle.tar" "projects/p1" "token"
      = (none, some err) ∧
      errorsAs isAPIError err = none ∧ errorsAs isConnectionError err = none :=
  ⟨(UploadBundle_decodes_artifact (exampleEnv (answering okResponse)) exampleClient
      (quietRun .producerIssuerSignal) "bundle.tar" "projects/p1" "token" artifactJSON
      rfl rfl rfl).1 "bundle.tar" "projects/p1/artifacts/a1" (by decide),
    (UploadBundle_decodes_artifact (exampleEnv (answering ⟨"200 OK", 200, ⟨"", none⟩⟩))
      exampleClient (quietRun .producerIssuerSignal) "bundle.tar" "projects/p1" "token" ""
      rfl rfl rfl).2 ⟨"", ""⟩ GoJSON.invalidText (by decide)⟩

/-- No error of the signal handler or of the body producer holds an
`*APIError` or a `*ConnectionError`. -/
theorem phase_error_unclassified (run : UploadRun) (path : String) (err : GoError)
    (h : signalHandler run = some err ∨ bodyProducer run path = some err) :
    errorsAs isAPIError err = none ∧ errorsAs isConnectionError err = none := by
  rcases h with h | h
  · unfold signalHandler at h
    cases hs : run.signal with
    | none => rw [hs] at h; simp at h
    | some s =>
      rw [hs] at h
      simp only [Option.some.injEq] at h
      subst h
      simp [errorsAs, isAPIError, isConnectionError]
  · obtain ⟨e, rfl⟩ := bodyProducer_error run path err h
    simp [errorsAs, isAPIError, isConnectionError]

/-- C1 as stated fails: SIGINT arrives, the request is cancelled before a
response is obtained, and `UploadBundle` returns the error of the signal
handler, in which `errors.As` finds no `*ConnectionError`. -/
theorem UploadBundle_cancelled_returns_SignalError :
    (exampleEnv (failing contextCanceled)).Do 0
        (uploadRequest exampleClient interruptedRun uploadURL "token")
      = .error contextCanceled ∧
    UploadBundle (exampleEnv (failing contextCanceled)) exampleClient interruptedRun
        "bundle.tar" "projects/p1" "token"
      = (none, some (.SignalError 2)) ∧
    errorsAs isConnectionError (.SignalError 2) = none := by
  refine ⟨rfl, ?_, ?_⟩ <;> decide

/-- C1, amended: when the HTTP round trip of `UploadBundle` fails before a
response is obtained, `UploadBundle` returns no artifact and a non-nil error in
which `errors.As` finds no `*APIError`.  The error is the one of the goroutine
that failed first: when the signal handler or the body producer failed before
the issuer, which is how the request context gets cancelled, `UploadBundle`
returns the signal error or the I/O error, and `errors.As` finds no
`*ConnectionError` in it. -/
theorem UploadBundle_roundtrip_failure (env : Env) (client : APIClient) (run : UploadRun)
    (path projectName token url : String) (e : StdError)
    (hurl : env.JoinPath client.Server ["v2", projectName, "artifacts", "import"] = .ok url)
    (hreq : env.NewRequestWithContext "POST" url = none)
    (hdo : env.Do 0 (uploadRequest client run url token) = .error e) :
    ∃ err, UploadBundle env client run path projectName token = (none, some err) ∧
      errorsAs isAPIError err = none ∧
      (∀ s, run.signal = some s →
        reportsFirst run.order (phaseResult env client run path projectName token)
          .signalHandler →
        err = .SignalError s ∧ errorsAs isConnectionError err = none) ∧
      (∀ ioErr, bodyProducer run path = some ioErr →
        reportsFirst run.order (phaseResult env client run path projectName token)
          .bodyProducer →
        err = ioErr ∧ errorsAs isConnectionError err = none) := by
  have hissuer : (requestIssuer env client run projectName token).2
      = some (.withStack (.std e)) := by
    rw [requestIssuer_of_failure env client run projectName token url e hurl hreq hdo]
  obtain ⟨err, hwait, q, hq⟩ :=
    Wait_isSome run.order (phaseResult env client run path projectName token)
      .requestIssuer _ hissuer
  have hupload := UploadBundle_of_Wait_error env client run path projectName token err hwait
  refine ⟨err, hupload, ?_, ?_, ?_⟩
  · cases q with
    | signalHandler => exact (phase_error_unclassified run path err (Or.inl hq)).1
    | bodyProducer => exact (phase_error_unclassified run path err (Or.inr hq)).1
    | requestIssuer =>
      have : err = .withStack (.std e) := by
        have := hq.symm.trans hissuer
        simpa using this
      subst this
      simp [errorsAs, isAPIError]
  · intro s hs hfirst
    have hsig : phaseResult env client run path projectName token .signalHandler
        = some (.SignalError s) := by
      simp [phaseResult, signalHandler, hs]
    have := (Wait_of_reportsFirst _ _ .signalHandler _ hsig hfirst).symm.trans hwait
    simp only [Option.some.injEq] at this
    subst this
    exact ⟨rfl, by simp [errorsAs, isConnectionError]⟩
  · intro ioErr hio hfirst
    have := (Wait_of_reportsFirst _ _ .bodyProducer _ hio hfirst).symm.trans hwait
    simp only [Option.some.injEq] at this
    subst this
    exact ⟨rfl, (phase_error_unclassified run path _ (Or.inr hio)).2⟩

/-- C1, amended, worked examples: the upload interrupted by SIGINT, and the
upload of a file that cannot be read to its end. -/
theorem UploadBundle_roundtrip_failure_witness :
    (∃ err, UploadBundle (exampleEnv (failing contextCanceled)) exampleClient interruptedRun
        "bundle.tar" "projects/p1" "token" = (none, some err) ∧
      errorsAs isAPIError err = none ∧
      err = .SignalError 2 ∧ errorsAs isConnectionError err = none) ∧
    (∃ err, UploadBundle (exampleEnv (failing contextCanceled)) exampleClient
        unreadableFileRun "bundle.tar" "projects/p1" "token" = (none, some err) ∧
      errorsAs isAPIError err = none ∧
      err = .withStack (.std ⟨"read bundle.tar: input/output error"⟩) ∧
      errorsAs isConnectionError err = none) := by
  constructor
  · obtain ⟨err, hupload, hapi, hsignal, _⟩ :=
      UploadBundle_roundtrip_failure (exampleEnv (failing contextCanceled)) exampleClient
        interruptedRun "bundle.tar" "projects/p1" "token" uploadURL contextCanceled
        rfl rfl rfl
    have h := hsignal 2 rfl (by decide)
    exact ⟨err, hupload, hapi, h.1, h.2⟩
  · obtain ⟨err, hupload, hapi, _, hproducer⟩ :=
      UploadBundle_roundtrip_failure (exampleEnv (failing contextCanceled)) exampleClient
        unreadableFileRun "bundle.tar" "projects/p1" "token" uploadURL contextCanceled
        rfl rfl rfl
    have h := hproducer _ rfl (by decide)
    exact ⟨err, hupload, hapi, h.1, h.2⟩

/-- The upload to a server that refuses the connection, with no signal and a
readable file: the error of `httpClient.Do` comes back with a stack only. -/
theorem UploadBundle_connection_refused :
    UploadBundle (exampleEnv (failing connectionRefused)) exampleClient answeredEarlyRun
        "bundle.tar" "projects/p1" "token"
      = (none, some (.withStack (.std connectionRefused))) := by
  decide

/-- C10 as stated fails: the file does not exist, so the body producer fails
with the error of `os.Stat`, but SIGTERM arrived first, and `UploadBundle`
returns the signal error and not the I/O error. -/
theorem UploadBundle_producer_failure_after_signal :
    bodyProducer interruptedMissingFileRun "bundle.tar"
      = some (.withStack (.std ⟨"stat bundle.tar: no such file or directory"⟩)) ∧
    UploadBundle (exampleEnv (failing contextCanceled)) exampleClient
        interruptedMissingFileRun "bundle.tar" "projects/p1" "token"
      = (none, some (.SignalError 15)) ∧
    GoError.SignalError 15
      ≠ .withStack (.std ⟨"stat bundle.tar: no such file or directory"⟩) := by
  refine ⟨?_, ?_, ?_⟩ <;> decide

/-- C10, amended: when the body producer of `UploadBundle` fails with an I/O
error, `UploadBundle` returns no artifact and a non-nil error, in every order of
the three goroutines; the error is that I/O error whenever the body producer is
the first goroutine to fail; and the producer has closed the multipart writer
and then the write end of the pipe before it returns. -/
theorem UploadBundle_producer_failure (env : Env) (client : APIClient) (run : UploadRun)
    (path projectName token : String) (ioErr : GoError)
    (hproducer : bodyProducer run path = some ioErr) :
    (∃ e, ioErr = .withStack (.std e)) ∧
    (∃ err, UploadBundle env client run path projectName token = (none, some err)) ∧
    (reportsFirst run.order (phaseResult env client run path projectName token)
        .bodyProducer →
      UploadBundle env client run path projectName token = (none, some ioErr)) ∧
    (∃ calls, bodyProducerCalls run path = calls ++ [.CloseMultipart, .ClosePipe]) := by
  refine ⟨bodyProducer_error run path ioErr hproducer, ?_, ?_, ?_⟩
  · obtain ⟨err, hwait, _⟩ :=
      Wait_isSome run.order (phaseResult env client run path projectName token)
        .bodyProducer ioErr hproducer
    exact ⟨err, UploadBundle_of_Wait_error env client run path projectName token err hwait⟩
  · intro hfirst
    exact UploadBundle_of_Wait_error env client run path projectName token ioErr
      (Wait_of_reportsFirst _ _ .bodyProducer ioErr hproducer hfirst)
  · unfold bodyProducerCalls
    cases run.CreateFormFile "fuzzing-artifacts" path with
    | some _ => exact ⟨[.CreateFormFile "fuzzing-artifacts" path], rfl⟩
    | none =>
      cases run.Stat path with
      | some _ => exact ⟨[.CreateFormFile "fuzzing-artifacts" path], rfl⟩
      | none =>
        cases run.Open path with
        | some _ => exact ⟨[.CreateFormFile "fuzzing-artifacts" path], rfl⟩
        | none => exact ⟨[.CreateFormFile "fuzzing-artifacts" path, .Copy], rfl⟩

/-- C10, amended, worked example: the file cannot be read to its end, and the
producer is the first goroutine to fail. -/
theorem UploadBundle_producer_failure_witness :
    UploadBundle (exampleEnv (failing contextCanceled)) exampleClient unreadableFileRun
        "bundle.tar" "projects/p1" "token"
      = (none, some (.withStack (.std ⟨"read bundle.tar: input/output error"⟩))) :=
  (UploadBundle_producer_failure (exampleEnv (failing contextCanceled)) exampleClient
    unreadableFileRun "bundle.tar" "projects/p1" "token" _ rfl).2.2.1
    (by simp [reportsFirst, unreadableFileRun, JoinOrder.phases])

theorem https_toList (s : String) :
    ("https://" ++ s).toList = 'h' :: 't' :: 't' :: 'p' :: 's' :: ':' :: '/' :: '/' :: s.toList := by
  simp [String.toList, String.data_append]

theorem cutFragment_https (s : String) :
    (cutFragment ("https://" ++ s).toList).1
      = 'h' :: 't' :: 't' :: 'p' :: 's' :: ':' :: '/' :: '/' :: (cutFragment s.toList).1 := by
  rw [https_toList]
  simp [cutFragment, List.takeWhile]

theorem getScheme_https (rest : List Char) :
    getScheme ('h' :: 't' :: 't' :: 'p' :: 's' :: ':' :: rest)
      = .ok (['h', 't', 't', 'p', 's'], rest) := by
  rfl

theorem parse_https_Scheme (net : NetURL) (rest : List Char) (u : URL)
    (h : net.parse ('h' :: 't' :: 't' :: 'p' :: 's' :: ':' :: rest) = .ok u) :
    u.Scheme = "https" := by
  unfold NetURL.parse at h
  rw [getScheme_https] at h
  split at h
  · simp at h
  · split at h
    · rename_i hstar
      simp at hstar
    · simp only at h
      split at h
      · simp at h
      · simp only [Except.ok.injEq] at h
        rw [← h]
        rfl

theorem Parse_Scheme_of_parse (net : NetURL) (rawURL : String) (u : URL)
    (h : net.Parse rawURL = .ok u) :
    ∃ v, net.parse (cutFragment rawURL.toList).1 = .ok v ∧ u.Scheme = v.Scheme := by
  unfold NetURL.Parse at h
  simp only at h
  split at h
  · simp at h
  · rename_i v hv
    split at h
    · simp only [Except.ok.injEq] at h
      exact ⟨v, hv, by rw [← h]⟩
    · split at h
      · simp at h
      · simp only [Except.ok.injEq] at h
        exact ⟨v, hv, by rw [← h]⟩

theorem Parse_https_Scheme (net : NetURL) (s : String) (u : URL)
    (h : net.Parse ("https://" ++ s) = .ok u) : u.Scheme = "https" := by
  obtain ⟨v, hv, hs⟩ := Parse_Scheme_of_parse net _ u h
  rw [cutFragment_https] at hv
  rw [hs]
  exact parse_https_Scheme net _ v hv

/-- `validateURL` accepts exactly the strings that `url.Parse` reads as a URL of
scheme http or https. -/
theorem validateURL_eq_none (net : NetURL) (s : String) :
    validateURL net s = none ↔
      ∃ u, net.Parse s = .ok u ∧ (u.Scheme = "http" ∨ u.Scheme = "https") := by
  unfold validateURL
  cases hp : net.Parse s with
  | error err => simp
  | ok u =>
    by_cases h1 : u.Scheme = "http"
    · simp [h1]
    · by_cases h2 : u.Scheme = "https"
      · simp [h2]
      · simp [h1, h2]

theorem JoinPath_of_Parse_ok (net : NetURL) (base : String) (u : URL)
    (h : net.Parse base = .ok u) :
    net.JoinPath base [] = .ok (net.URLString (net.URLJoinPath u [])) := by
  simp [NetURL.JoinPath, h]

theorem JoinPath_of_Parse_error (net : NetURL) (base : String) (err : StdError)
    (h : net.Parse base = .error err) : net.JoinPath base [] = .error err := by
  simp [NetURL.JoinPath, h]

/-- What `String` prints starts with the scheme and a colon. -/
theorem URLString_starts_with_Scheme (net : NetURL) (u : URL) (h : u.Scheme ≠ "") :
    (u.Scheme ++ ":").toList <+: (net.URLString u).toList := by
  unfold NetURL.URLString
  rw [if_pos h]
  simp only [String.toList, String.data_append]
  exact List.prefix_append _ _

theorem ValidateAndNormalizeServerURL_of_valid (net : NetURL) (server : String)
    (h : validateURL net server = none) :
    ValidateAndNormalizeServerURL net server
      = match net.JoinPath server [] with
        | .ok url => (url, none)
        | .error err => ("", some (.std err)) := by
  unfold ValidateAndNormalizeServerURL
  rw [h]
  simp only
  cases hj : net.JoinPath server [] <;> rfl

theorem ValidateAndNormalizeServerURL_of_invalid (net : NetURL) (server : String)
    (h : validateURL net server ≠ none) :
    ValidateAndNormalizeServerURL net server
      = match net.JoinPath ("https://" ++ server) [] with
        | .ok url => (url, none)
        | .error err => ("", some (.std err)) := by
  unfold ValidateAndNormalizeServerURL
  cases hv : validateURL net server with
  | none => exact absurd hv h
  | some e =>
    simp only
    cases hj : net.JoinPath ("https://" ++ server) [] <;> rfl

/-- C11: whenever `ValidateAndNormalizeServerURL(s)` returns without error, the
string it returns is what `String` prints for a URL of scheme http or https, and
starts with `http:` or `https:`.  When `s` validates as an http or https URL,
the result is the path-normalised `s` with the scheme of `s`; otherwise the
result is the path-normalised `"https://" + s`, of scheme https, when that
string parses; and when neither `s` nor `"https://" + s` validates, the function
returns the empty string and the error of `url.Parse`. -/
theorem ValidateAndNormalizeServerURL_scheme (net : NetURL) (server : String) :
    (∀ result, ValidateAndNormalizeServerURL net server = (result, none) →
      ∃ u, result = net.URLString u ∧ (u.Scheme = "http" ∨ u.Scheme = "https") ∧
        ("http:".toList <+: result.toList ∨ "https:".toList <+: result.toList)) ∧
    (validateURL net server = none →
      ∃ u, net.Parse server = .ok u ∧ (u.Scheme = "http" ∨ u.Scheme = "https") ∧
        (net.URLJoinPath u []).Scheme = u.Scheme ∧
        ValidateAndNormalizeServerURL net server
          = (net.URLString (net.URLJoinPath u []), none)) ∧
    (validateURL net server ≠ none →
      ∀ u, net.Parse ("https://" ++ server) = .ok u →
        u.Scheme = "https" ∧ (net.URLJoinPath u []).Scheme = "https" ∧
        ValidateAndNormalizeServerURL net server
          = (net.URLString (net.URLJoinPath u []), none)) ∧
    (validateURL net server ≠ none → validateURL net ("https://" ++ server) ≠ none →
      ∃ err, net.Parse ("https://" ++ server) = .error err ∧
        ValidateAndNormalizeServerURL net server = ("", some (.std err))) := by
  have hvalid : validateURL net server = none →
      ∃ u, net.Parse server = .ok u ∧ (u.Scheme = "http" ∨ u.Scheme = "https") ∧
        (net.URLJoinPath u []).Scheme = u.Scheme ∧
        ValidateAndNormalizeServerURL net server
          = (net.URLString (net.URLJoinPath u []), none) := by
    intro hv
    obtain ⟨u, hp, hs⟩ := (validateURL_eq_none net server).mp hv
    refine ⟨u, hp, hs, rfl, ?_⟩
    rw [ValidateAndNormalizeServerURL_of_valid net server hv,
      JoinPath_of_Parse_ok net server u hp]
  have hadded : validateURL net server ≠ none →
      ∀ u, net.Parse ("https://" ++ server) = .ok u →
        u.Scheme = "https" ∧ (net.URLJoinPath u []).Scheme = "https" ∧
        ValidateAndNormalizeServerURL net server
          = (net.URLString (net.URLJoinPath u []), none) := by
    intro hv u hp
    have hs := Parse_https_Scheme net server u hp
    refine ⟨hs, hs, ?_⟩
    rw [ValidateAndNormalizeServerURL_of_invalid net server hv,
      JoinPath_of_Parse_ok net _ u hp]
  have hstarts : ∀ u : URL, (u.Scheme = "http" ∨ u.Scheme = "https") →
      ("http:".toList <+: (net.URLString u).toList ∨
        "https:".toList <+: (net.URLString u).toList) := by
    intro u hs
    rcases hs with hs | hs
    · left
      have := URLString_starts_with_Scheme net u (by rw [hs]; decide)
      rwa [hs] at this
    · right
      have := URLString_starts_with_Scheme net u (by rw [hs]; decide)
      rwa [hs] at this
  refine ⟨?_, hvalid, hadded, ?_⟩
  · intro result hres
    cases hv : validateURL net server with
    | none =>
      obtain ⟨u, _, hs, hkeep, heq⟩ := hvalid hv
      have hr : result = net.URLString (net.URLJoinPath u []) := by
        have := hres.symm.trans heq
        simpa using this
      have hs2 : (net.URLJoinPath u []).Scheme = "http" ∨
          (net.URLJoinPath u []).Scheme = "https" := by rwa [hkeep]
      exact ⟨_, hr, hs2, by rw [hr]; exact hstarts _ hs2⟩
    | some e =>
      have hne : validateURL net server ≠ none := by rw [hv]; simp
      cases hp : net.Parse ("https://" ++ server) with
      | error err =>
        rw [ValidateAndNormalizeServerURL_of_invalid net server hne,
          JoinPath_of_Parse_error net _ err hp] at hres
        simp at hres
      | ok u =>
        obtain ⟨_, hs, heq⟩ := hadded hne u hp
        have hr : result = net.URLString (net.URLJoinPath u []) := by
          have := hres.symm.trans heq
          simpa using this
        exact ⟨_, hr, Or.inr hs, by rw [hr]; exact hstarts _ (Or.inr hs)⟩
  · intro hv hv2
    cases hp : net.Parse ("https://" ++ server) with
    | error err =>
      refine ⟨err, rfl, ?_⟩
      rw [ValidateAndNormalizeServerURL_of_invalid net server hv,
        JoinPath_of_Parse_error net _ err hp]
    | ok u =>
      exact absurd ((validateURL_eq_none net _).mpr
        ⟨u, hp, Or.inr (Parse_https_Scheme net server u hp)⟩) hv2

/-- C11, worked examples: a server given with its scheme, a server given as a
host, and a server name with a line break, which no scheme makes valid. -/
theorem ValidateAndNormalizeServerURL_scheme_witness :
    (∃ u, "https://app.example.com/" = exampleNetURL.URLString u ∧
      (u.Scheme = "http" ∨ u.Scheme = "https") ∧
      ("http:".toList <+: "https://app.example.com/".toList ∨
        "https:".toList <+: "https://app.example.com/".toList)) ∧
    (∃ u, exampleNetURL.Parse "http://localhost:8080/" = .ok u ∧
      (u.Scheme = "http" ∨ u.Scheme = "https") ∧
      (exampleNetURL.URLJoinPath u []).Scheme = u.Scheme ∧
      ValidateAndNormalizeServerURL exampleNetURL "http://localhost:8080/"
        = (exampleNetURL.URLString (exampleNetURL.URLJoinPath u []), none)) ∧
    ValidateAndNormalizeServerURL exampleNetURL "http://localhost:8080/"
      = ("http://localhost:8080/", none) ∧
    ValidateAndNormalizeServerURL exampleNetURL "app.example.com/"
      = ("https://app.example.com/", none) ∧
    (∃ err, exampleNetURL.Parse ("https://" ++ "app.example.com\n") = .error err ∧
      ValidateAndNormalizeServerURL exampleNetURL "app.example.com\n"
        = ("", some (.std err))) :=
  ⟨(ValidateAndNormalizeServerURL_scheme exampleNetURL "app.example.com/").1
      "https://app.example.com/" rfl,
    (ValidateAndNormalizeServerURL_scheme exampleNetURL "http://localhost:8080/").2.1 rfl,
    rfl,
    ((ValidateAndNormalizeServerURL_scheme exampleNetURL "app.example.com/").2.2.1
      (by decide) ⟨"https", "", "app.example.com", "/", "", ""⟩ rfl).2.2,
    (ValidateAndNormalizeServerURL_scheme exampleNetURL "app.example.com\n").2.2.2
      (by decide) (by decide)⟩

end Api
